import Mathlib

/-!
Verification of the Paper Radar ranking core against its written design.

The repository ships the read-serving UI (TypeScript, under `frontend/` and
the unnamed page sources) together with design documents
(`backend/README.md`, `additional_info.md`) describing the scoring,
caching, baseline-estimation and rate-limiting core.  That core's code is
not part of the repository's files, so it is modelled here from the
specification's words (each such definition says so in its doc comment);
the UI behaviour (the `PaperCard` trending badge) is embedded from the
actual source.  All score arithmetic is carried out over `ℚ`, keeping
every definition executable.
-/

/-- Clamp a rational into the unit interval `[0,1]`. -/
def clamp01 (x : ℚ) : ℚ := if x ≤ 0 then 0 else if 1 ≤ x then 1 else x

/-- Modelled from the spec: "rescaling a raw metric relative to population
statistics of its category" (field normalization).  Divides by the baseline
statistic when the statistic is positive; a degenerate (zero or negative)
baseline saturates instead of dividing, so normalization never reverses
order. -/
def normBy (x base : ℚ) : ℚ :=
  if 0 < base then x / base else if 0 < x then 1 else 0

/-- Modelled from the spec: the "saturating (not linear) curve" that maps a
normalized growth value into `[0,1)` so outliers do not dominate. -/
def satQ (x : ℚ) : ℚ := if x ≤ 0 then 0 else x / (1 + x)

/-- Kernel-computable floor logarithm (fuel-driven); stands in for the
spec's "log transform" applied to count-like metrics before percentiles. -/
def log2Aux : ℕ → ℕ → ℕ
  | 0, _ => 0
  | fuel + 1, n => if n ≤ 1 then 0 else log2Aux fuel (n / 2) + 1

/-- Modelled from the spec: "applying a log transform to count-like metrics
(citations, stars) ... to reduce skew"; `log₂ (n+1)` as a rational. -/
def logCount (n : ℕ) : ℚ := (log2Aux (n + 1) (n + 1) : ℚ)

/-- Modelled from the spec §3 ArtifactMetrics: "identifier, publication
timestamp, raw citation count, citation counts at two prior sample points
(for velocity), code-repository star count, code-repository existence flag,
social-signal count, category tag", plus the enrichment-supplied signals
§4.4 consumes (data/experiment availability for reproducibility, the
optional author-level signal, the optional semantic dissimilarity and the
keyword dissimilarity for novelty).  The publication timestamp is kept as
an age in days at scoring time. -/
structure ArtifactMetrics where
  id : ℕ
  publishedDaysAgo : ℕ
  citationCount : ℕ
  citationRecentSample : ℕ
  citationPriorSample : ℕ
  starCount : ℕ
  hasCode : Bool
  hasData : Bool
  hasExperiments : Bool
  socialCount : ℕ
  category : ℕ
  authorSignal : Option ℚ
  semanticDissim : Option ℚ
  keywordDissim : ℚ
deriving DecidableEq

/-- Modelled from the spec §3 FieldBaseline: "{median, p90, p99} for each
raw metric". -/
structure MetricStats where
  median : ℚ
  p90 : ℚ
  p99 : ℚ
deriving DecidableEq

/-- Modelled from the spec §3 FieldBaseline: per-category order statistics
for each raw metric, "plus sample size and computed-at timestamp", with the
"insufficient" mark for the global-fallback case. -/
structure FieldBaseline where
  citations : MetricStats
  velocity : MetricStats
  stars : MetricStats
  social : MetricStats
  sampleSize : ℕ
  computedAt : ℕ
  insufficient : Bool
deriving DecidableEq

/-- Modelled from the spec §6 configuration surface: "weight table for the
seven score components (must sum to 1.0); freshness-boost multiplier and
age/traction thresholds", plus the recency half-life of §4.4. -/
structure ScoreConfig where
  wMomentum : ℚ
  wImpl : ℚ
  wAuthor : ℚ
  wNovelty : ℚ
  wRepro : ℚ
  wCommunity : ℚ
  wRecency : ℚ
  freshBoostFactor : ℚ
  freshAgeDays : ℕ
  tractionFloor : ℕ
  halfLifeDays : ℕ
deriving DecidableEq

/-- The sum of the seven configured component weights. -/
def weightSum (cfg : ScoreConfig) : ℚ :=
  cfg.wMomentum + cfg.wImpl + cfg.wAuthor + cfg.wNovelty + cfg.wRepro +
    cfg.wCommunity + cfg.wRecency

/-- Modelled from the spec §9: configuration is "checked at construction
time, not per-call"; a weight table that does not sum to 1 is refused. -/
def mkScoreConfig (cfg : ScoreConfig) : Option ScoreConfig :=
  if weightSum cfg = 1 then some cfg else none

/-- The WEIGHTS table of `additional_info.md` (ranking engine), with the
freshness parameters of `backend/README.md` (3.0x multiplier, papers
younger than 7 days) and a traction floor of one signal. -/
def defaultConfig : ScoreConfig :=
  { wMomentum := 1/4
    wImpl := 1/5
    wAuthor := 3/20
    wNovelty := 3/20
    wRepro := 1/10
    wCommunity := 1/10
    wRecency := 1/20
    freshBoostFactor := 3
    freshAgeDays := 7
    tractionFloor := 1
    halfLifeDays := 7 }

/-- Citation velocity: "recent sample − prior sample". -/
def velocity (a : ArtifactMetrics) : ℤ :=
  (a.citationRecentSample : ℤ) - (a.citationPriorSample : ℤ)

/-- Modelled from the spec §4.4: "exponential growth (ratio-based) detected
and rewarded beyond pure linear counts" — a fixed reward when the recent
sample at least doubles a positive prior sample. -/
def expBonus (a : ArtifactMetrics) : ℚ :=
  if 0 < a.citationPriorSample ∧
      2 * a.citationPriorSample ≤ a.citationRecentSample then 1/10 else 0

/-- Modelled from the spec §4.4 citation momentum: velocity "normalized by
the category's p90 velocity; mapped through a saturating (not linear)
curve", plus the ratio-based growth reward, clamped into `[0,1]`. -/
def citationMomentum (a : ArtifactMetrics) (b : FieldBaseline) : ℚ :=
  clamp01 (satQ (normBy (velocity a : ℚ) b.velocity.p90) + expBonus a)

/-- Modelled from the spec §4.4 implementation quality: "presence of code
is a necessary condition for a nonzero score in this component; star count
is normalized against the category baseline on a log scale". -/
def implementationQuality (a : ArtifactMetrics) (b : FieldBaseline) : ℚ :=
  if a.hasCode then clamp01 (normBy (logCount a.starCount) b.stars.p90) else 0

/-- Modelled from the spec §4.4 author credibility: the available
author-level signal, clamped; "missing data yields a neutral (not zero,
not one) default". -/
def authorCredibility (a : ArtifactMetrics) : ℚ :=
  match a.authorSignal with
  | some s => clamp01 s
  | none => 1/2

/-- Modelled from the spec §4.4 novelty: "blend of semantic dissimilarity
... and keyword-overlap dissimilarity; if SimilarityIndex is unavailable,
falls back to keyword-only novelty with a documented confidence discount"
(discount factor 3/4). -/
def noveltyScore (a : ArtifactMetrics) : ℚ :=
  match a.semanticDissim with
  | some d => clamp01 ((d + a.keywordDissim) / 2)
  | none => clamp01 (a.keywordDissim * (3/4))

/-- Modelled from the spec §4.4 reproducibility: "composite indicator from
code + data + described-experiments availability, each contributing a fixed
increment, capped at 1.0". -/
def reproducibility (a : ArtifactMetrics) : ℚ :=
  clamp01 ((if a.hasCode then 2/5 else 0) + (if a.hasData then 3/10 else 0) +
    (if a.hasExperiments then 3/10 else 0))

/-- Modelled from the spec §4.4 community engagement: "normalized
social-signal count against category baseline". -/
def communityEngagement (a : ArtifactMetrics) (b : FieldBaseline) : ℚ :=
  clamp01 (normBy (a.socialCount : ℚ) b.social.p90)

/-- Modelled from the spec §4.4 recency: "exponential decay from
publication date with a configurable half-life", one halving per full
half-life elapsed. -/
def recencyScore (cfg : ScoreConfig) (a : ArtifactMetrics) : ℚ :=
  (1/2 : ℚ) ^ (a.publishedDaysAgo / cfg.halfLifeDays)

/-- Modelled from the spec §4.4: a freshness-gated artifact's traction,
"e.g., nonzero citation or social signal". -/
def traction (a : ArtifactMetrics) : ℕ := a.citationCount + a.socialCount

/-- Modelled from the spec §4.4 freshness boost: "multiplicative boost
applied only to artifacts younger than a configurable age threshold AND
exhibiting a minimum traction floor"; otherwise the multiplier is 1. -/
def freshBoost (cfg : ScoreConfig) (a : ArtifactMetrics) : ℚ :=
  if a.publishedDaysAgo < cfg.freshAgeDays ∧ cfg.tractionFloor ≤ traction a then
    cfg.freshBoostFactor
  else 1

/-- Modelled from the spec §3 ScoreBreakdown: "one entry per weighted
component ... plus a total". -/
structure ScoreBreakdown where
  citationMomentum : ℚ
  implementationQuality : ℚ
  authorCredibility : ℚ
  novelty : ℚ
  reproducibility : ℚ
  communityEngagement : ℚ
  recency : ℚ
  total : ℚ
deriving DecidableEq

/-- The weighted sum of the seven base components. -/
def baseScore (cfg : ScoreConfig) (a : ArtifactMetrics) (b : FieldBaseline) : ℚ :=
  cfg.wMomentum * citationMomentum a b +
  cfg.wImpl * implementationQuality a b +
  cfg.wAuthor * authorCredibility a +
  cfg.wNovelty * noveltyScore a +
  cfg.wRepro * reproducibility a +
  cfg.wCommunity * communityEngagement a b +
  cfg.wRecency * recencyScore cfg a

/-- Modelled from the spec §4.4 `score(artifact, baseline) → ScoreBreakdown`:
"Total = weighted sum of the seven base components ..., then multiplied by
the freshness boost, then clamped to [0,1]". -/
def score (cfg : ScoreConfig) (a : ArtifactMetrics) (b : FieldBaseline) :
    ScoreBreakdown :=
  { citationMomentum := citationMomentum a b
    implementationQuality := implementationQuality a b
    authorCredibility := authorCredibility a
    novelty := noveltyScore a
    reproducibility := reproducibility a
    communityEngagement := communityEngagement a b
    recency := recencyScore cfg a
    total := clamp01 (freshBoost cfg a * baseScore cfg a b) }

theorem clamp01_nonneg (x : ℚ) : 0 ≤ clamp01 x := by
  unfold clamp01
  split
  · exact le_refl 0
  · split
    · exact zero_le_one
    · rename_i hx _
      exact (lt_of_not_le hx).le

theorem clamp01_le_one (x : ℚ) : clamp01 x ≤ 1 := by
  unfold clamp01
  split
  · exact zero_le_one
  · split
    · exact le_refl 1
    · rename_i _ hx
      exact (lt_of_not_le hx).le

theorem clamp01_mono {x y : ℚ} (h : x ≤ y) : clamp01 x ≤ clamp01 y := by
  by_cases hx0 : x ≤ 0
  · calc clamp01 x = 0 := by simp [clamp01, hx0]
      _ ≤ clamp01 y := clamp01_nonneg y
  · have hy0 : ¬ y ≤ 0 := fun hy => hx0 (le_trans h hy)
    by_cases hx1 : 1 ≤ x
    · have hy1 : 1 ≤ y := le_trans hx1 h
      simp [clamp01, hx0, hy0, hx1, hy1]
    · by_cases hy1 : 1 ≤ y
      · calc clamp01 x ≤ 1 := clamp01_le_one x
          _ = clamp01 y := by simp [clamp01, hy0, hy1]
      · simp [clamp01, hx0, hy0, hx1, hy1, h]

theorem satQ_nonneg (x : ℚ) : 0 ≤ satQ x := by
  unfold satQ
  split
  · exact le_refl 0
  · rename_i hx
    have hx' : 0 < x := lt_of_not_le hx
    exact div_nonneg hx'.le (by linarith)

theorem satQ_le_one (x : ℚ) : satQ x ≤ 1 := by
  unfold satQ
  split
  · exact zero_le_one
  · rename_i hx
    have hx' : 0 < x := lt_of_not_le hx
    rw [div_le_one (by linarith)]
    linarith

theorem satQ_mono {x y : ℚ} (h : x ≤ y) : satQ x ≤ satQ y := by
  by_cases hx : x ≤ 0
  · calc satQ x = 0 := by simp [satQ, hx]
      _ ≤ satQ y := satQ_nonneg y
  · have hx' : 0 < x := lt_of_not_le hx
    have hy' : 0 < y := lt_of_lt_of_le hx' h
    have hyn : ¬ y ≤ 0 := not_le_of_lt hy'
    simp only [satQ, if_neg hx, if_neg hyn]
    rw [div_le_div_iff₀ (by linarith) (by linarith)]
    nlinarith

theorem normBy_mono {x y base : ℚ} (h : x ≤ y) : normBy x base ≤ normBy y base := by
  unfold normBy
  by_cases hb : 0 < base
  · simp only [if_pos hb]
    exact (div_le_div_iff_of_pos_right hb).mpr h
  · simp only [if_neg hb]
    by_cases hx : 0 < x
    · simp [if_pos hx, if_pos (lt_of_lt_of_le hx h)]
    · simp only [if_neg hx]
      split <;> norm_num

theorem expBonus_nonneg (a : ArtifactMetrics) : 0 ≤ expBonus a := by
  unfold expBonus
  split <;> norm_num

theorem expBonus_mono {a₁ a₂ : ArtifactMetrics}
    (hp : a₂.citationPriorSample = a₁.citationPriorSample)
    (hr : a₁.citationRecentSample ≤ a₂.citationRecentSample) :
    expBonus a₁ ≤ expBonus a₂ := by
  unfold expBonus
  rw [hp]
  split
  · rename_i h1
    rw [if_pos ⟨h1.1, le_trans h1.2 hr⟩]
  · split <;> norm_num

theorem normBy_zero (base : ℚ) : normBy 0 base = 0 := by
  unfold normBy
  split
  · exact zero_div base
  · simp

theorem citationMomentum_nonneg (a : ArtifactMetrics) (b : FieldBaseline) :
    0 ≤ citationMomentum a b := clamp01_nonneg _

theorem citationMomentum_le_one (a : ArtifactMetrics) (b : FieldBaseline) :
    citationMomentum a b ≤ 1 := clamp01_le_one _

theorem implementationQuality_nonneg (a : ArtifactMetrics) (b : FieldBaseline) :
    0 ≤ implementationQuality a b := by
  unfold implementationQuality
  split
  · exact clamp01_nonneg _
  · exact le_refl 0

theorem implementationQuality_le_one (a : ArtifactMetrics) (b : FieldBaseline) :
    implementationQuality a b ≤ 1 := by
  unfold implementationQuality
  split
  · exact clamp01_le_one _
  · exact zero_le_one

theorem authorCredibility_nonneg (a : ArtifactMetrics) : 0 ≤ authorCredibility a := by
  unfold authorCredibility
  cases a.authorSignal
  · norm_num
  · exact clamp01_nonneg _

theorem authorCredibility_le_one (a : ArtifactMetrics) : authorCredibility a ≤ 1 := by
  unfold authorCredibility
  cases a.authorSignal
  · norm_num
  · exact clamp01_le_one _

theorem noveltyScore_nonneg (a : ArtifactMetrics) : 0 ≤ noveltyScore a := by
  unfold noveltyScore
  cases a.semanticDissim
  · exact clamp01_nonneg _
  · exact clamp01_nonneg _

theorem noveltyScore_le_one (a : ArtifactMetrics) : noveltyScore a ≤ 1 := by
  unfold noveltyScore
  cases a.semanticDissim
  · exact clamp01_le_one _
  · exact clamp01_le_one _

theorem recencyScore_nonneg (cfg : ScoreConfig) (a : ArtifactMetrics) :
    0 ≤ recencyScore cfg a := by
  unfold recencyScore
  positivity

theorem recencyScore_le_one (cfg : ScoreConfig) (a : ArtifactMetrics) :
    recencyScore cfg a ≤ 1 := by
  unfold recencyScore
  exact pow_le_one₀ (by norm_num) (by norm_num)

/-- A fixed category baseline used to instantiate the theorems below. -/
def demoBaseline : FieldBaseline :=
  { citations := ⟨0, 1, 2⟩, velocity := ⟨1, 2, 4⟩, stars := ⟨1, 2, 3⟩,
    social := ⟨1, 3, 9⟩, sampleSize := 100, computedAt := 0, insufficient := false }

/-- The §8 scenario artifact: published 2 days ago, zero citations, zero
stars, zero social signal, and nothing else known about it. -/
def quietArtifact : ArtifactMetrics :=
  { id := 1, publishedDaysAgo := 2, citationCount := 0, citationRecentSample := 0,
    citationPriorSample := 0, starCount := 0, hasCode := false, hasData := false,
    hasExperiments := false, socialCount := 0, category := 0, authorSignal := none,
    semanticDissim := none, keywordDissim := 0 }

/-- A one-day-old artifact with ten citations: young enough and with enough
traction for the freshness boost to fire. -/
def boostedArtifact : ArtifactMetrics :=
  { quietArtifact with
    publishedDaysAgo := 1
    citationCount := 10
    authorSignal := some 0
    semanticDissim := some 0 }

/-- Claim C1, as frozen, asserts that the total of a `ScoreBreakdown` is
the weighted sum of the seven components clamped to `[0,1]`.  On the §4.4
formula the weighted sum is first multiplied by the freshness boost, so a
young artifact with traction refutes the frozen wording: its total is
`clamp01 (3 * (1/20))` rather than `clamp01 (1/20)`. -/
theorem total_neq_unboosted_weighted_sum :
    (score defaultConfig boostedArtifact demoBaseline).total ≠
      clamp01
        (defaultConfig.wMomentum *
            (score defaultConfig boostedArtifact demoBaseline).citationMomentum +
          defaultConfig.wImpl *
            (score defaultConfig boostedArtifact demoBaseline).implementationQuality +
          defaultConfig.wAuthor *
            (score defaultConfig boostedArtifact demoBaseline).authorCredibility +
          defaultConfig.wNovelty *
            (score defaultConfig boostedArtifact demoBaseline).novelty +
          defaultConfig.wRepro *
            (score defaultConfig boostedArtifact demoBaseline).reproducibility +
          defaultConfig.wCommunity *
            (score defaultConfig boostedArtifact demoBaseline).communityEngagement +
          defaultConfig.wRecency *
            (score defaultConfig boostedArtifact demoBaseline).recency) := by
  with_unfolding_all decide

/-- Claim C1 (amended): for every configuration accepted at construction
time (weights validated to sum to exactly 1), every `ScoreBreakdown`
returned by `score` has all seven components and the total in `[0,1]`, and
the total equals the weighted sum of the components multiplied by the
freshness boost and then clamped to `[0,1]` (the clamped plain weighted sum
exactly when no boost applies). -/
theorem score_breakdown_invariants (raw cfg : ScoreConfig) (a : ArtifactMetrics)
    (b : FieldBaseline) (hmk : mkScoreConfig raw = some cfg) :
    weightSum cfg = 1
    ∧ (0 ≤ (score cfg a b).citationMomentum ∧ (score cfg a b).citationMomentum ≤ 1)
    ∧ (0 ≤ (score cfg a b).implementationQuality ∧
        (score cfg a b).implementationQuality ≤ 1)
    ∧ (0 ≤ (score cfg a b).authorCredibility ∧ (score cfg a b).authorCredibility ≤ 1)
    ∧ (0 ≤ (score cfg a b).novelty ∧ (score cfg a b).novelty ≤ 1)
    ∧ (0 ≤ (score cfg a b).reproducibility ∧ (score cfg a b).reproducibility ≤ 1)
    ∧ (0 ≤ (score cfg a b).communityEngagement ∧
        (score cfg a b).communityEngagement ≤ 1)
    ∧ (0 ≤ (score cfg a b).recency ∧ (score cfg a b).recency ≤ 1)
    ∧ (0 ≤ (score cfg a b).total ∧ (score cfg a b).total ≤ 1)
    ∧ (score cfg a b).total =
        clamp01 (freshBoost cfg a *
          (cfg.wMomentum * (score cfg a b).citationMomentum +
            cfg.wImpl * (score cfg a b).implementationQuality +
            cfg.wAuthor * (score cfg a b).authorCredibility +
            cfg.wNovelty * (score cfg a b).novelty +
            cfg.wRepro * (score cfg a b).reproducibility +
            cfg.wCommunity * (score cfg a b).communityEngagement +
            cfg.wRecency * (score cfg a b).recency)) := by
  have hw : weightSum cfg = 1 := by
    unfold mkScoreConfig at hmk
    split at hmk
    · cases hmk
      assumption
    · cases hmk
  refine ⟨hw, ⟨citationMomentum_nonneg a b, citationMomentum_le_one a b⟩,
    ⟨implementationQuality_nonneg a b, implementationQuality_le_one a b⟩,
    ⟨authorCredibility_nonneg a, authorCredibility_le_one a⟩,
    ⟨noveltyScore_nonneg a, noveltyScore_le_one a⟩,
    ⟨clamp01_nonneg _, clamp01_le_one _⟩,
    ⟨clamp01_nonneg _, clamp01_le_one _⟩,
    ⟨recencyScore_nonneg cfg a, recencyScore_le_one cfg a⟩,
    ⟨clamp01_nonneg _, clamp01_le_one _⟩, rfl⟩

theorem score_breakdown_invariants_witness :
    weightSum defaultConfig = 1
    ∧ (score defaultConfig boostedArtifact demoBaseline).total ≤ 1 := by
  have h := score_breakdown_invariants defaultConfig defaultConfig boostedArtifact
    demoBaseline (by with_unfolding_all rfl)
  exact ⟨h.1, h.2.2.2.2.2.2.2.2.1.2⟩

/-- An artifact one day short of the freshness age threshold with zero
traction. -/
def edgeArtifact : ArtifactMetrics := { quietArtifact with publishedDaysAgo := 6 }

/-- Claim C2: the multiplicative freshness boost is applied (the multiplier
is the configured factor rather than 1) iff the artifact is strictly
younger than the age threshold AND its traction meets the configured
floor; in particular an artifact aged threshold minus one day with zero
traction receives no boost whenever the floor is positive. -/
theorem freshness_boost_iff_young_and_traction (cfg : ScoreConfig)
    (a : ArtifactMetrics) (hf : cfg.freshBoostFactor ≠ 1) :
    (freshBoost cfg a = cfg.freshBoostFactor ↔
      a.publishedDaysAgo < cfg.freshAgeDays ∧ cfg.tractionFloor ≤ traction a)
    ∧ (a.publishedDaysAgo = cfg.freshAgeDays - 1 ∧ traction a = 0 ∧
        0 < cfg.tractionFloor → freshBoost cfg a = 1) := by
  constructor
  · unfold freshBoost
    split
    · rename_i h
      exact ⟨fun _ => h, fun _ => rfl⟩
    · rename_i h
      exact ⟨fun he => absurd he.symm hf, fun hc => absurd hc h⟩
  · rintro ⟨-, htr, hfl⟩
    unfold freshBoost
    rw [if_neg]
    rintro ⟨-, hle⟩
    rw [htr] at hle
    omega

theorem freshness_boost_iff_young_and_traction_witness :
    freshBoost defaultConfig edgeArtifact = 1 :=
  (freshness_boost_iff_young_and_traction defaultConfig edgeArtifact
    (by norm_num [defaultConfig])).2 ⟨rfl, rfl, by decide⟩

/-- An artifact with a positive but modest citation velocity. -/
def steadyArtifact : ArtifactMetrics :=
  { quietArtifact with citationPriorSample := 1, citationRecentSample := 2 }

/-- The same artifact with a strictly larger recent citation sample, hence
a higher citation velocity. -/
def surgingArtifact : ArtifactMetrics :=
  { steadyArtifact with citationRecentSample := 6 }

/-- Claim C4: for artifacts identical except for a higher citation
velocity (a larger recent citation sample over the same prior sample), and
for every baseline and configuration, the citation-momentum component of
the second ScoreBreakdown is at least that of the first. -/
theorem citation_momentum_monotone (cfg : ScoreConfig) (a₁ a₂ : ArtifactMetrics)
    (b : FieldBaseline)
    (hEq : a₂ = { a₁ with citationRecentSample := a₂.citationRecentSample })
    (hv : velocity a₁ ≤ velocity a₂) :
    (score cfg a₁ b).citationMomentum ≤ (score cfg a₂ b).citationMomentum := by
  have hp : a₂.citationPriorSample = a₁.citationPriorSample := by rw [hEq]
  have hr : a₁.citationRecentSample ≤ a₂.citationRecentSample := by
    unfold velocity at hv
    omega
  show citationMomentum a₁ b ≤ citationMomentum a₂ b
  unfold citationMomentum
  apply clamp01_mono
  apply add_le_add
  · exact satQ_mono (normBy_mono (by exact_mod_cast hv))
  · exact expBonus_mono hp hr

theorem citation_momentum_monotone_witness :
    (score defaultConfig steadyArtifact demoBaseline).citationMomentum ≤
      (score defaultConfig surgingArtifact demoBaseline).citationMomentum :=
  citation_momentum_monotone defaultConfig steadyArtifact surgingArtifact
    demoBaseline rfl (by decide)

/-- Claim C5, as frozen, asserts that the §8 scenario artifact (2 days
old, zero citations, stars and social signal) scores a total equal to the
recency contribution alone.  With no author metadata the §4.4 neutral
default contributes `wAuthor * (1/2)` as well, so the total is
`3/20 * 1/2 + 1/20 * 1 = 1/8`, not `1/20`; implementation quality is `0`
and no freshness boost applies, as claimed. -/
theorem zero_signal_total_exceeds_recency_alone :
    (score defaultConfig quietArtifact demoBaseline).implementationQuality = 0
    ∧ freshBoost defaultConfig quietArtifact = 1
    ∧ (score defaultConfig quietArtifact demoBaseline).total ≠
        defaultConfig.wRecency *
          (score defaultConfig quietArtifact demoBaseline).recency := by
  with_unfolding_all decide

/-- Claim C5 (amended): for an artifact published 2 days ago with zero
citations, zero code-repository stars, zero social signal and no further
enrichment data, `score` under the default configuration yields an
implementation-quality component equal to 0 and applies no freshness boost
(traction floor unmet); the total equals the recency contribution plus the
neutral author-credibility default contribution `wAuthor * (1/2)` (all
other components are 0). -/
theorem zero_signal_scenario_breakdown (a : ArtifactMetrics) (b : FieldBaseline)
    (hage : a.publishedDaysAgo = 2) (hcc : a.citationCount = 0)
    (hrs : a.citationRecentSample = 0) (hps : a.citationPriorSample = 0)
    (_hst : a.starCount = 0) (hso : a.socialCount = 0)
    (hco : a.hasCode = false) (hda : a.hasData = false)
    (hex : a.hasExperiments = false) (hau : a.authorSignal = none)
    (hse : a.semanticDissim = none) (hkw : a.keywordDissim = 0) :
    (score defaultConfig a b).implementationQuality = 0
    ∧ freshBoost defaultConfig a = 1
    ∧ (score defaultConfig a b).total =
        defaultConfig.wAuthor * (1/2) +
          defaultConfig.wRecency * (score defaultConfig a b).recency := by
  have hmom : citationMomentum a b = 0 := by
    unfold citationMomentum velocity expBonus
    rw [hrs, hps]
    norm_num [normBy_zero, satQ, clamp01]
  have himpl : implementationQuality a b = 0 := by
    unfold implementationQuality
    rw [hco]
    simp
  have hautc : authorCredibility a = 1/2 := by
    unfold authorCredibility
    rw [hau]
  have hnov : noveltyScore a = 0 := by
    unfold noveltyScore
    rw [hse, hkw]
    norm_num [clamp01]
  have hrep : reproducibility a = 0 := by
    unfold reproducibility
    rw [hco, hda, hex]
    norm_num [clamp01]
  have hcom : communityEngagement a b = 0 := by
    unfold communityEngagement
    rw [hso]
    norm_num [normBy_zero, clamp01]
  have hrec : recencyScore defaultConfig a = 1 := by
    unfold recencyScore
    rw [hage]
    norm_num [defaultConfig]
  have hfb : freshBoost defaultConfig a = 1 := by
    unfold freshBoost
    rw [if_neg]
    rintro ⟨-, hle⟩
    rw [traction, hcc, hso] at hle
    exact absurd hle (by decide)
  refine ⟨himpl, hfb, ?_⟩
  have hproj : (score defaultConfig a b).recency = recencyScore defaultConfig a := rfl
  rw [hproj, hrec]
  show clamp01 (freshBoost defaultConfig a * baseScore defaultConfig a b) = _
  rw [hfb]
  unfold baseScore
  rw [hmom, himpl, hautc, hnov, hrep, hcom]
  show clamp01 (1 * (_ + _ + _ + _ + _ + _ + defaultConfig.wRecency * recencyScore defaultConfig a)) = _
  rw [hrec]
  norm_num [clamp01, defaultConfig]

theorem zero_signal_scenario_breakdown_witness :
    (score defaultConfig quietArtifact demoBaseline).total =
      defaultConfig.wAuthor * (1/2) +
        defaultConfig.wRecency * (score defaultConfig quietArtifact demoBaseline).recency :=
  (zero_signal_scenario_breakdown quietArtifact demoBaseline rfl rfl rfl rfl rfl rfl
    rfl rfl rfl rfl rfl rfl).2.2

/-- The samples of the population inside the rolling window. -/
def windowed (pop : List ArtifactMetrics) (windowDays : ℕ) : List ArtifactMetrics :=
  pop.filter (fun a => a.publishedDaysAgo ≤ windowDays)

/-- The in-window samples carrying a given category tag. -/
def catSamples (pop : List ArtifactMetrics) (windowDays c : ℕ) :
    List ArtifactMetrics :=
  (windowed pop windowDays).filter (fun a => a.category == c)

/-- The empirical `num/den` percentile of a list of rationals: the entry at
rank `⌊num * n / den⌋` of the ascending sort (0 for an empty list). -/
def percentileQ (xs : List ℚ) (num den : ℕ) : ℚ :=
  (xs.insertionSort (· ≤ ·)).getD (num * xs.length / den) 0

/-- Median, p90 and p99 of one raw metric over a sample list. -/
def metricStats (xs : List ℚ) : MetricStats :=
  { median := percentileQ xs 50 100
    p90 := percentileQ xs 90 100
    p99 := percentileQ xs 99 100 }

/-- Modelled from the spec §4.3: order statistics per raw metric over a
sample list, with the log transform applied to the count-like metrics
(citations, stars) before computing percentiles. -/
def baselineOf (samples : List ArtifactMetrics) (computedAt : ℕ) : FieldBaseline :=
  { citations := metricStats (samples.map fun a => logCount a.citationCount)
    velocity := metricStats (samples.map fun a => (velocity a : ℚ))
    stars := metricStats (samples.map fun a => logCount a.starCount)
    social := metricStats (samples.map fun a => (a.socialCount : ℚ))
    sampleSize := samples.length
    computedAt := computedAt
    insufficient := false }

/-- A baseline flagged as statistically insufficient. -/
def markInsufficient (b : FieldBaseline) : FieldBaseline :=
  { b with insufficient := true }

/-- Modelled from the spec §4.3 `computeBaselines(population, windowDays)`:
partitions the in-window population by category tag; a category "with
fewer than the minimum sample threshold" falls back to the global
(cross-category) baseline, "flagged as such"; any other category gets
percentiles from its own samples. -/
def computeBaselines (pop : List ArtifactMetrics)
    (windowDays minSamples computedAt : ℕ) : ℕ → FieldBaseline :=
  fun c =>
    let own := catSamples pop windowDays c
    if own.length < minSamples then
      markInsufficient (baselineOf (windowed pop windowDays) computedAt)
    else
      baselineOf own computedAt

/-- Claim C6: a category whose in-window sample count is below the
configured minimum threshold gets a baseline marked insufficient that is
the global (cross-category) fallback; a category at or above the threshold
gets the baseline computed from its own samples, not marked insufficient. -/
theorem baselines_insufficient_fallback (pop : List ArtifactMetrics)
    (windowDays minSamples computedAt c : ℕ) :
    ((computeBaselines pop windowDays minSamples computedAt c).insufficient = true ↔
      (catSamples pop windowDays c).length < minSamples)
    ∧ ((catSamples pop windowDays c).length < minSamples →
        computeBaselines pop windowDays minSamples computedAt c =
          markInsufficient (baselineOf (windowed pop windowDays) computedAt))
    ∧ (minSamples ≤ (catSamples pop windowDays c).length →
        computeBaselines pop windowDays minSamples computedAt c =
          baselineOf (catSamples pop windowDays c) computedAt) := by
  unfold computeBaselines
  by_cases h : (catSamples pop windowDays c).length < minSamples
  · refine ⟨?_, fun _ => by simp [h], fun hge => absurd h (not_lt_of_le hge)⟩
    simp [h, markInsufficient]
  · refine ⟨?_, fun hlt => absurd hlt h, fun _ => by simp [h]⟩
    simp [h, baselineOf]

/-- A two-category population: category 0 holds five in-window samples,
category 1 only two. -/
def demoPop : List ArtifactMetrics :=
  [{ quietArtifact with id := 1, category := 0 },
   { quietArtifact with id := 2, category := 0 },
   { quietArtifact with id := 3, category := 0 },
   { quietArtifact with id := 4, category := 0 },
   { quietArtifact with id := 5, category := 0 },
   { quietArtifact with id := 6, category := 1 },
   { quietArtifact with id := 7, category := 1 }]

theorem baselines_insufficient_fallback_witness :
    ((computeBaselines demoPop 90 3 0 1).insufficient = true
      ∧ computeBaselines demoPop 90 3 0 1 =
          markInsufficient (baselineOf (windowed demoPop 90) 0))
    ∧ ((computeBaselines demoPop 90 3 0 0).insufficient = false
      ∧ computeBaselines demoPop 90 3 0 0 = baselineOf (catSamples demoPop 90 0) 0) := by
  constructor
  · constructor
    · exact (baselines_insufficient_fallback demoPop 90 3 0 1).1.mpr (by decide)
    · exact (baselines_insufficient_fallback demoPop 90 3 0 1).2.1 (by decide)
  · constructor
    · have h := (baselines_insufficient_fallback demoPop 90 3 0 0).2.2 (by decide)
      rw [h]
      rfl
    · exact (baselines_insufficient_fallback demoPop 90 3 0 0).2.2 (by decide)

/-- The volatility classes of the TTL_STRATEGY table in
`additional_info.md`. -/
inductive VolClass where
  | paperMetadata
  | citations
  | implementations
  | socialSignals
  | trendingPapers
  | embeddings
  | summaries
deriving DecidableEq

/-- The TTL_STRATEGY table of `additional_info.md`, in seconds: paper
metadata 7 days, citations 1 hour, implementations 6 hours, social signals
15 minutes, trending papers 10 minutes, embeddings 30 days, summaries
7 days. -/
def ttl : VolClass → ℕ
  | .paperMetadata => 86400 * 7
  | .citations => 3600
  | .implementations => 3600 * 6
  | .socialSignals => 900
  | .trendingPapers => 600
  | .embeddings => 86400 * 30
  | .summaries => 86400 * 7

/-- Modelled from the spec §3 CacheEntry: "key, serialized value,
volatility class, stored-at timestamp, computed expiry". -/
structure CacheEntry (α : Type) where
  key : ℕ
  value : α
  volClass : VolClass
  storedAt : ℕ
  expiry : ℕ

/-- A fresh entry stored at `now`: its expiry is the stored-at time plus
the TTL of its volatility class. -/
def mkEntry (now k : ℕ) (v : α) (c : VolClass) : CacheEntry α :=
  { key := k, value := v, volClass := c, storedAt := now, expiry := now + ttl c }

/-- Modelled from the spec §4.2 VolatilityCache: the physical store.
Expired entries stay physically present until a background sweep purges
them (lazy eviction). -/
structure VolatilityCache (α : Type) where
  entries : List (CacheEntry α)

/-- Modelled from the spec §4.2 `put(key, value, volatilityClass)`:
replaces any entry under the key with a fresh one whose expiry is derived
from the class TTL. -/
def VolatilityCache.put (s : VolatilityCache α) (now k : ℕ) (v : α)
    (c : VolClass) : VolatilityCache α :=
  { entries := mkEntry now k v c :: s.entries.filter (fun e => e.key != k) }

/-- Modelled from the spec §4.2 `get(key) → value | miss` with "lazy expiry
check on read": an entry past its expiry is logically absent even if
physically present. -/
def VolatilityCache.get (s : VolatilityCache α) (k now : ℕ) : Option α :=
  match s.entries.find? (fun e => e.key == k) with
  | some e => if now < e.expiry then some e.value else none
  | none => none

/-- Whether some entry under the key is physically present in the store. -/
def VolatilityCache.present (s : VolatilityCache α) (k : ℕ) : Bool :=
  s.entries.any (fun e => e.key == k)

/-- Claim C7: a stored entry's expiry equals its stored-at timestamp plus
the TTL of its volatility class, and `get` at any time strictly past that
expiry reports a miss although the entry, never invalidated, is still
physically present. -/
theorem cache_entry_expiry_ttl_miss (s : VolatilityCache α) (now k : ℕ)
    (v : α) (c : VolClass) (t : ℕ) (ht : now + ttl c < t) :
    (mkEntry now k v c).expiry = (mkEntry now k v c).storedAt + ttl c
    ∧ (s.put now k v c).get k t = none
    ∧ (s.put now k v c).present k = true := by
  refine ⟨rfl, ?_, ?_⟩
  · unfold VolatilityCache.get VolatilityCache.put
    simp only [List.find?_cons, mkEntry, beq_self_eq_true]
    rw [if_neg (by omega)]
  · unfold VolatilityCache.present VolatilityCache.put
    simp [mkEntry]

theorem cache_entry_expiry_ttl_miss_witness :
    (VolatilityCache.put ⟨([] : List (CacheEntry ℕ))⟩ 0 1 42 .trendingPapers).get 1 601 = none
    ∧ (VolatilityCache.put ⟨([] : List (CacheEntry ℕ))⟩ 0 1 42 .trendingPapers).present 1 = true := by
  have h := cache_entry_expiry_ttl_miss (α := ℕ) ⟨[]⟩ 0 1 42 VolClass.trendingPapers 601
    (by decide)
  exact ⟨h.2.1, h.2.2⟩

/-- Modelled from the spec §3 LimiterState: "token budget, refill rate,
consecutive-failure count, current backoff duration, last-success
timestamp". -/
structure LimiterState where
  tokens : ℚ
  refillRate : ℚ
  consecFailures : ℕ
  backoff : ℚ
  lastSuccess : ℕ
deriving DecidableEq

/-- Backoff bounds of the RateLimiter configuration: the floor the window
shrinks back toward and the configurable maximum cap. -/
structure BackoffConfig where
  floor : ℚ
  cap : ℚ
deriving DecidableEq

/-- Modelled from the spec §4.1: "On failure attributable to rate limiting,
apply exponential backoff with multiplicative factor 2, capped at a
configurable maximum"; "`recordFailure(isRateLimit)` increments backoff
only when `isRateLimit` is true; other failures are reported but do not
affect the budget".  Non-rate-limit failures only bump the reported
consecutive-failure count. -/
def recordFailure (cfg : BackoffConfig) (s : LimiterState)
    (isRateLimit : Bool) : LimiterState :=
  if isRateLimit then
    { s with
      consecFailures := s.consecFailures + 1
      backoff :=
        if cfg.cap < 2 * s.backoff then cfg.cap
        else if 2 * s.backoff < cfg.floor then cfg.floor
        else 2 * s.backoff }
  else
    { s with consecFailures := s.consecFailures + 1 }

/-- Modelled from the spec §4.1: "`recordSuccess` resets the
consecutive-failure counter and shrinks the backoff window geometrically
(factor 0.5) back toward the floor". -/
def recordSuccess (cfg : BackoffConfig) (s : LimiterState) (now : ℕ) :
    LimiterState :=
  { s with
    consecFailures := 0
    backoff := if s.backoff / 2 < cfg.floor then cfg.floor else s.backoff / 2
    lastSuccess := now }

/-- Claim C9: `recordFailure` with `isRateLimit = false` leaves the
backoff duration, the token budget and the refill rate unchanged (the
failure is only reported through the consecutive-failure count); hence the
backoff moves only when `isRateLimit` is true. -/
theorem record_failure_non_rate_limit_frame (cfg : BackoffConfig)
    (s : LimiterState) :
    (recordFailure cfg s false).backoff = s.backoff
    ∧ (recordFailure cfg s false).tokens = s.tokens
    ∧ (recordFailure cfg s false).refillRate = s.refillRate
    ∧ (recordFailure cfg s false).consecFailures = s.consecFailures + 1 :=
  ⟨rfl, rfl, rfl, rfl⟩

theorem record_failure_non_rate_limit_frame_witness :
    (recordFailure ⟨1, 60⟩ ⟨10, 2, 3, 8, 5⟩ false).backoff = 8
    ∧ (recordFailure ⟨1, 60⟩ ⟨10, 2, 3, 8, 5⟩ false).tokens = 10 :=
  ⟨(record_failure_non_rate_limit_frame ⟨1, 60⟩ ⟨10, 2, 3, 8, 5⟩).1,
   (record_failure_non_rate_limit_frame ⟨1, 60⟩ ⟨10, 2, 3, 8, 5⟩).2.1⟩

/-- Modelled from the spec §4.2/§5: the events one cache key sees during
`getOrCompute` traffic — a caller arriving, or the in-flight computation
resolving. -/
inductive SFEvent where
  | arrive (caller : ℕ)
  | complete
deriving DecidableEq

/-- Modelled from the spec §4.2 single-flight state of one cache key: the
cached value if any, whether a computation is in flight, the callers
suspended on the in-flight group, how many times `computeFn` has been
started, and the results delivered to callers so far. -/
structure SFKeyState (α ε : Type) where
  cached : Option α
  inFlight : Bool
  waiters : List ℕ
  invocations : ℕ
  delivered : List (ℕ × Except ε α)

/-- The key before any traffic: nothing cached, nothing in flight. -/
def sfInit : SFKeyState α ε :=
  { cached := none, inFlight := false, waiters := [], invocations := 0,
    delivered := [] }

/-- Modelled from the spec §4.2 `getOrCompute` semantics, one event at a
time.  `fn i` is the outcome of the `i`-th invocation of `computeFn`.  An
arriving caller is served from cache on a hit; otherwise it joins the
in-flight group, starting the computation if none is in flight.  On
completion, a success is cached and delivered to every waiter; a failure
is delivered to every waiter and "the key is not cached so the next call
retries". -/
def sfStep (fn : ℕ → Except ε α) (s : SFKeyState α ε) : SFEvent → SFKeyState α ε
  | .arrive c =>
    match s.cached with
    | some v => { s with delivered := (c, Except.ok v) :: s.delivered }
    | none =>
      if s.inFlight then
        { s with waiters := c :: s.waiters }
      else
        { s with inFlight := true, waiters := [c],
                 invocations := s.invocations + 1 }
  | .complete =>
    if s.inFlight then
      match fn (s.invocations - 1) with
      | .ok v =>
        { cached := some v, inFlight := false, waiters := [],
          invocations := s.invocations,
          delivered := s.waiters.map (fun c => (c, Except.ok v)) ++ s.delivered }
      | .error e =>
        { cached := none, inFlight := false, waiters := [],
          invocations := s.invocations,
          delivered := s.waiters.map (fun c => (c, Except.error e)) ++ s.delivered }
    else s

/-- A whole trace of single-flight events on one key. -/
def sfRun (fn : ℕ → Except ε α) (s : SFKeyState α ε) (events : List SFEvent) :
    SFKeyState α ε :=
  events.foldl (sfStep fn) s

theorem sfRun_append (fn : ℕ → Except ε α) (s : SFKeyState α ε)
    (l₁ l₂ : List SFEvent) :
    sfRun fn s (l₁ ++ l₂) = sfRun fn (sfRun fn s l₁) l₂ :=
  List.foldl_append _ _ _ _

theorem sfRun_single (fn : ℕ → Except ε α) (s : SFKeyState α ε) (e : SFEvent) :
    sfRun fn s [e] = sfStep fn s e := rfl

theorem sfRun_arrivals_inflight (fn : ℕ → Except ε α) (cs : List ℕ)
    (s : SFKeyState α ε) (hc : s.cached = none) (hf : s.inFlight = true) :
    sfRun fn s (cs.map SFEvent.arrive) = { s with waiters := cs.reverse ++ s.waiters } := by
  induction cs generalizing s with
  | nil => simp [sfRun]
  | cons c cs ih =>
    have hstep : sfStep fn s (SFEvent.arrive c) = { s with waiters := c :: s.waiters } := by
      unfold sfStep
      rw [hc, hf]
      simp
    simp only [List.map_cons, sfRun, List.foldl_cons]
    rw [hstep]
    have := ih { s with waiters := c :: s.waiters } hc hf
    simp only [sfRun] at this
    rw [this]
    simp [List.append_assoc]

/-- The key's state once a first caller has started the flight and further
callers have joined the group. -/
def sfFlightState (c : ℕ) (cs : List ℕ) : SFKeyState α ε :=
  { cached := none, inFlight := true, waiters := cs.reverse ++ [c],
    invocations := 1, delivered := [] }

theorem sfRun_first_flight (fn : ℕ → Except ε α) (c : ℕ) (cs : List ℕ) :
    sfRun fn (sfInit (α := α) (ε := ε)) ((c :: cs).map SFEvent.arrive) =
      sfFlightState c cs := by
  have hstep : sfStep fn (sfInit (α := α) (ε := ε)) (SFEvent.arrive c) =
      { cached := none, inFlight := true, waiters := [c], invocations := 1,
        delivered := [] } := rfl
  simp only [List.map_cons, sfRun, List.foldl_cons]
  rw [hstep]
  have := sfRun_arrivals_inflight fn cs
    { cached := none, inFlight := true, waiters := [c], invocations := 1,
      delivered := ([] : List (ℕ × Except ε α)) } rfl rfl
  simp only [sfRun] at this
  rw [this]
  rfl

/-- Claim C3: when `N ≥ 1` callers arrive at a key while no cached value
exists and the one in-flight computation then resolves successfully,
`computeFn` has been invoked exactly once, every caller is delivered the
computed value, and nothing but that one value is ever delivered. -/
theorem single_flight_once_same_result (fn : ℕ → Except ε α) (v : α)
    (c : ℕ) (cs : List ℕ) (hfn : fn 0 = Except.ok v) :
    (sfRun fn sfInit ((c :: cs).map SFEvent.arrive ++ [SFEvent.complete])).invocations = 1
    ∧ (∀ x ∈ c :: cs, (x, Except.ok v) ∈
        (sfRun fn sfInit ((c :: cs).map SFEvent.arrive ++ [SFEvent.complete])).delivered)
    ∧ (∀ p ∈ (sfRun fn sfInit ((c :: cs).map SFEvent.arrive ++ [SFEvent.complete])).delivered,
        p.2 = Except.ok v) := by
  rw [sfRun_append, sfRun_first_flight]
  have hfinal :
      sfRun fn (sfFlightState c cs) [SFEvent.complete] =
      { cached := some v, inFlight := false, waiters := [], invocations := 1,
        delivered := (cs.reverse ++ [c]).map (fun x => (x, Except.ok v)) ++ [] } := by
    rw [sfRun_single]
    unfold sfFlightState sfStep
    simp only [if_pos]
    rw [show (1 : ℕ) - 1 = 0 from rfl, hfn]
  rw [hfinal]
  refine ⟨rfl, ?_, ?_⟩
  · intro x hx
    simp only [List.append_nil, List.mem_map]
    refine ⟨x, ?_, rfl⟩
    simp only [List.mem_append, List.mem_reverse]
    rcases hx with _ | h
    · right
      simp
    · left
      assumption
  · intro p hp
    simp only [List.append_nil, List.mem_map] at hp
    obtain ⟨x, -, rfl⟩ := hp
    rfl

theorem single_flight_once_same_result_witness :
    (sfRun (fun _ => (Except.ok 42 : Except Unit ℕ)) sfInit
        ([1, 2, 3].map SFEvent.arrive ++ [SFEvent.complete])).invocations = 1
    ∧ (2, Except.ok 42) ∈
        (sfRun (fun _ => (Except.ok 42 : Except Unit ℕ)) sfInit
          ([1, 2, 3].map SFEvent.arrive ++ [SFEvent.complete])).delivered := by
  have h := single_flight_once_same_result
    (fun _ => (Except.ok 42 : Except Unit ℕ)) 42 1 [2, 3] rfl
  exact ⟨h.1, h.2.1 2 (by simp)⟩

/-- Claim C8: when the single computation for a key fails, the failure is
delivered to every caller waiting on the single-flight group, no value is
cached under the key, and a later arrival for the same key starts a fresh
computation (a second `computeFn` invocation) instead of being served from
cache. -/
theorem single_flight_failure_propagation (fn : ℕ → Except ε α) (e : ε)
    (c c' : ℕ) (cs : List ℕ) (hfn : fn 0 = Except.error e) :
    (sfRun fn sfInit ((c :: cs).map SFEvent.arrive ++ [SFEvent.complete])).cached = none
    ∧ (∀ x ∈ c :: cs, (x, Except.error e) ∈
        (sfRun fn sfInit ((c :: cs).map SFEvent.arrive ++ [SFEvent.complete])).delivered)
    ∧ (sfRun fn sfInit
        ((c :: cs).map SFEvent.arrive ++ [SFEvent.complete, SFEvent.arrive c'])).invocations = 2
    ∧ (sfRun fn sfInit
        ((c :: cs).map SFEvent.arrive ++ [SFEvent.complete, SFEvent.arrive c'])).inFlight = true := by
  have hfail :
      sfStep fn (sfFlightState c cs) SFEvent.complete =
      { cached := none, inFlight := false, waiters := [], invocations := 1,
        delivered := (cs.reverse ++ [c]).map (fun x => (x, Except.error e)) ++ [] } := by
    unfold sfFlightState sfStep
    simp only [if_pos]
    rw [show (1 : ℕ) - 1 = 0 from rfl, hfn]
  have hcomplete :
      sfRun fn sfInit ((c :: cs).map SFEvent.arrive ++ [SFEvent.complete]) =
      { cached := none, inFlight := false, waiters := [], invocations := 1,
        delivered := (cs.reverse ++ [c]).map (fun x => (x, Except.error e)) ++ [] } := by
    rw [sfRun_append, sfRun_first_flight]
    exact hfail
  refine ⟨by rw [hcomplete], ?_, ?_, ?_⟩
  · intro x hx
    rw [hcomplete]
    simp only [List.append_nil, List.mem_map]
    refine ⟨x, ?_, rfl⟩
    simp only [List.mem_append, List.mem_reverse]
    rcases hx with _ | h
    · right
      simp
    · left
      assumption
  · rw [show ([SFEvent.complete, SFEvent.arrive c']) =
        [SFEvent.complete] ++ [SFEvent.arrive c'] from rfl, ← List.append_assoc,
      sfRun_append, sfRun_append, sfRun_first_flight, sfRun_single, sfRun_single,
      hfail]
    rfl
  · rw [show ([SFEvent.complete, SFEvent.arrive c']) =
        [SFEvent.complete] ++ [SFEvent.arrive c'] from rfl, ← List.append_assoc,
      sfRun_append, sfRun_append, sfRun_first_flight, sfRun_single, sfRun_single,
      hfail]
    rfl

theorem single_flight_failure_propagation_witness :
    (sfRun (fun _ => (Except.error 7 : Except ℕ ℕ)) sfInit
        ([1, 2].map SFEvent.arrive ++ [SFEvent.complete])).cached = none
    ∧ (sfRun (fun _ => (Except.error 7 : Except ℕ ℕ)) sfInit
        ([1, 2].map SFEvent.arrive ++ [SFEvent.complete, SFEvent.arrive 9])).invocations = 2 := by
  have h := single_flight_failure_propagation
    (fun _ => (Except.error 7 : Except ℕ ℕ)) 7 1 9 [2] rfl
  exact ⟨h.1, h.2.2.1⟩

/-- From the `PaperCard` component of the read-serving UI
(`const isTrending = paper.citation_velocity_7d > 5`): the TRENDING badge
renders exactly when the paper's 7-day citation velocity exceeds the
hardcoded threshold 5. -/
def isTrending (citationVelocity7d : ℤ) : Bool :=
  decide (5 < citationVelocity7d)

/-- Claim C10: `PaperCard` renders the TRENDING badge iff the paper's
`citation_velocity_7d` is strictly greater than the fixed threshold 5; a
paper with exactly 5 citations in the past week is not marked trending. -/
theorem paper_card_trending_iff (v : ℤ) :
    (isTrending v = true ↔ 5 < v) ∧ isTrending 5 = false := by
  constructor
  · unfold isTrending
    exact decide_eq_true_iff
  · decide

theorem paper_card_trending_iff_witness :
    isTrending 6 = true ∧ isTrending 5 = false :=
  ⟨(paper_card_trending_iff 6).1.mpr (by decide), (paper_card_trending_iff 5).2⟩
